import Mathlib

/-!
Verification development for the Stalcraft Modules API (`src/app.py`).

The Python service keeps a process-wide catalog `MODULES : Dict[str,
ModuleDefinition]` that is lazily populated by `load_modules` from a fixed
list of JSON source files, and serves three read endpoints built on the pure
helpers `resolve_display_name`, `calculate_stats` and
`compute_module_stats_payload`, plus the `build_stats` endpoint that
aggregates three modules.

The embedding below mirrors that code:
  * Python `float` is modelled by `Rat` (the code performs only `a + b * p`
    and sums; no rounding or clamping appears anywhere in the source);
  * Python `dict` values are modelled by association lists together with
    `dget` (mirroring `dict.get`) and `dset` (mirroring `d[k] = v`), which
    keep insertion order exactly as CPython dicts do;
  * raising `HTTPException(status_code, detail)` is modelled by returning
    `Except.error (ApiErr.http status detail)`; an exception type that the
    code does not catch (pydantic validation errors escaping the
    `except TypeError` clause of `load_modules`) is `ApiErr.uncaught`;
  * the global mutable `MODULES` is threaded explicitly: `load_modules`
    takes the current catalog and the (pre-read) source files and returns
    the catalog left behind together with the error raised, if any.
-/

namespace ModulesApi

/-- Association-list analogue of Python `dict.get`: the value bound to `key`,
or `none` when `key` is absent. -/
def dget {α : Type} : List (String × α) → String → Option α
  | [], _ => none
  | (k, v) :: rest, key => if k = key then some v else dget rest key

/-- Association-list analogue of Python `d[key] = v`: overwrite in place when
the key exists (keeping its position, as CPython dicts do), append otherwise. -/
def dset {α : Type} : List (String × α) → String → α → List (String × α)
  | [], key, v => [(key, v)]
  | (k, w) :: rest, key, v =>
    if k = key then (k, v) :: rest else (k, w) :: dset rest key v

/-- The single-quote character, used by the f-string error messages of
`app.py` (written via `Char.ofNat` to keep the embedding plain ASCII). -/
def sq : String := String.singleton (Char.ofNat 39)

/-- `class StatCoeffs(BaseModel)`: the coefficient pair of the affine stat
formula `value = a + b * percent`. -/
structure StatCoeffs where
  a : Rat
  b : Rat
deriving DecidableEq

/-- `class Localization(BaseModel)`: the four optional localized display
names. A pydantic model has exactly these four fields, so any other language
tag simply has no entry. -/
structure Localization where
  ru : Option String := none
  en : Option String := none
  es : Option String := none
  fr : Option String := none
deriving DecidableEq

/-- `class ModuleDefinition(BaseModel)`: one catalog module. -/
structure ModuleDefinition where
  group : String
  moduleType : String
  localization : Localization
  stats : List (String × StatCoeffs)
deriving DecidableEq

/-- The global `MODULES` dictionary: module key to definition. -/
abbrev Catalog := List (String × ModuleDefinition)

/-- An error escaping one of the modelled functions: `http` is a raised
`HTTPException(status, detail)`; `uncaught` is an exception type the code
neither raises deliberately nor catches (pydantic validation errors). -/
inductive ApiErr where
  | http (status : Nat) (detail : String)
  | uncaught (msg : String)
deriving DecidableEq

/-- `class ModuleStatsResponse(BaseModel)`. -/
structure ModuleStatsResponse where
  module : String
  group : String
  moduleType : String
  display_name : Option String
  percent : Rat
  stats : List (String × Rat)
deriving DecidableEq

/-- `class BuildStatsResponse(BaseModel)`. -/
structure BuildStatsResponse where
  lang : String
  modules : List ModuleStatsResponse
  total_stats : List (String × Rat)
deriving DecidableEq

/-- Python truthiness of an optional string: `None` and `""` are falsy (the
code tests localization entries with a bare `if name:`). -/
def truthy : Option String → Bool
  | none => false
  | some s => s != ""

/-- The `by_lang` dictionary built inside `resolve_display_name`, accessed
through `.get`: an unknown tag yields `None`. -/
def by_lang (loc : Localization) (key : String) : Option String :=
  if key = "ru" then loc.ru
  else if key = "en" then loc.en
  else if key = "es" then loc.es
  else if key = "fr" then loc.fr
  else none

/-- `resolve_display_name(mod, lang)`: requested language first, then the
fixed `ru -> en -> es -> fr` chain, each entry taken only when truthy. -/
def resolve_display_name (m : ModuleDefinition) (lang : String) : Option String :=
  let loc := m.localization
  let name := by_lang loc lang
  if truthy name then name
  else if truthy (by_lang loc "ru") then by_lang loc "ru"
  else if truthy (by_lang loc "en") then by_lang loc "en"
  else if truthy (by_lang loc "es") then by_lang loc "es"
  else if truthy (by_lang loc "fr") then by_lang loc "fr"
  else none

/-- `calculate_stats(mod, percent)`: the stat map `{s: a + b * percent}`,
iterating the module's stats table in order. -/
def calculate_stats (m : ModuleDefinition) (percent : Rat) : List (String × Rat) :=
  m.stats.map (fun p => (p.1, p.2.a + p.2.b * percent))

/-- The detail string of the 404 raised by `compute_module_stats_payload`. -/
def unknownModuleMsg (key : String) : String :=
  "Unknown module " ++ sq ++ key ++ sq

/-- `compute_module_stats_payload(module_key, percent, lang)`, with the
global `MODULES` passed explicitly as `catalog`. -/
def compute_module_stats_payload (catalog : Catalog) (module_key : String)
    (percent : Rat) (lang : String) : Except ApiErr ModuleStatsResponse :=
  match dget catalog module_key with
  | none => .error (.http 404 (unknownModuleMsg module_key))
  | some m =>
    .ok { module := module_key
          group := m.group
          moduleType := m.moduleType
          display_name := resolve_display_name m lang
          percent := percent
          stats := calculate_stats m percent }

/-- The detail string of the 400 raised by the group checks of
`build_stats` (`"Module '<key>' не из группы <expected> (group=<actual>)"`). -/
def groupMismatchMsg (key expected actual : String) : String :=
  "Module " ++ sq ++ key ++ sq ++ " не из группы " ++ expected
    ++ " (group=" ++ actual ++ ")"

/-- The totals loop of `build_stats`:
`total[name] = total.get(name, 0.0) + value` over one module's stat map. -/
def addStats (total stats : List (String × Rat)) : List (String × Rat) :=
  stats.foldl (fun t p => dset t p.1 ((dget t p.1).getD 0 + p.2)) total

/-- The body of the `build_stats` endpoint after its `load_modules`
prologue (lines 276-314 of `app.py`): resolve the three modules, check the
three groups, aggregate the totals. -/
def build_stats_core (catalog : Catalog) (add_on : String) (add_on_q : Rat)
    (deviation : String) (deviation_q : Rat) (concept : String)
    (concept_q : Rat) (lang : String) : Except ApiErr BuildStatsResponse :=
  match compute_module_stats_payload catalog add_on add_on_q lang with
  | .error e => .error e
  | .ok add_on_stats =>
  match compute_module_stats_payload catalog deviation deviation_q lang with
  | .error e => .error e
  | .ok deviation_stats =>
  match compute_module_stats_payload catalog concept concept_q lang with
  | .error e => .error e
  | .ok concept_stats =>
  if add_on_stats.group ≠ "Add-On" then
    .error (.http 400 (groupMismatchMsg add_on "Add-On" add_on_stats.group))
  else if deviation_stats.group ≠ "Deviation" then
    .error (.http 400 (groupMismatchMsg deviation "Deviation" deviation_stats.group))
  else if concept_stats.group ≠ "Concept" then
    .error (.http 400 (groupMismatchMsg concept "Concept" concept_stats.group))
  else
    .ok { lang := lang
          modules := [add_on_stats, deviation_stats, concept_stats]
          total_stats :=
            addStats (addStats (addStats [] add_on_stats.stats)
              deviation_stats.stats) concept_stats.stats }

/-- The content of a module entry (`mod_data`) as
`ModuleDefinition(group=group_name, **mod_data)` sees it: either the fields
of a well-formed entry, or a value whose splatting raises `TypeError`
(caught and re-raised as `RuntimeError`), or a field set pydantic rejects
with a validation error (an exception type the `except TypeError` clause
does not catch). -/
inductive EntryData where
  | valid (moduleType : String) (localization : Localization)
      (stats : List (String × StatCoeffs))
  | typeErr (msg : String)
  | validationErr (msg : String)
deriving DecidableEq

/-- The value `raw.get("group")` of a parsed source: a string, or some
non-string JSON value (`isinstance(group_name, str)` distinguishes only
these two shapes). -/
inductive GroupField where
  | str (s : String)
  | nonStr
deriving DecidableEq

/-- The value `raw.get("modules")` of a parsed source: a JSON object (whose
items are iterated in document order), or some non-object value. -/
inductive ModulesField where
  | dict (entries : List (String × EntryData))
  | nonDict
deriving DecidableEq

/-- A parsed source document, seen through the two `raw.get` calls of
`load_modules` (`none` when the key is absent). -/
structure SourceDoc where
  group : Option GroupField
  modules : Option ModulesField
deriving DecidableEq

/-- What reading and JSON-parsing one path of `MODULE_FILES` can yield:
the file is missing (`path.exists()` is false), its text is not valid JSON
(`json.JSONDecodeError`), or it parses to a document. -/
inductive SourceKind where
  | missing
  | jsonError (msg : String)
  | parsed (doc : SourceDoc)
deriving DecidableEq

/-- One entry in `MODULE_FILES`: a path and what reading it yields. -/
structure Source where
  path : String
  kind : SourceKind
deriving DecidableEq

/-- An exception escaping `load_modules`: the `RuntimeError`s it raises
itself, or the pydantic validation error its `except TypeError` clause does
not catch. -/
inductive LoadError where
  | runtimeError (msg : String)
  | validationError (msg : String)
deriving DecidableEq

/-- The inner `for key, mod_data in modules_raw.items()` loop of
`load_modules`: duplicate-key check, then `MODULES[key] = ModuleDefinition
(group=group_name, **mod_data)`. Returns the `MODULES` state at exit
together with the exception raised, if any; modules stored before the
raising entry stay stored. -/
def loadEntries (path group_name : String) :
    Catalog → List (String × EntryData) → Catalog × Option LoadError
  | modules, [] => (modules, none)
  | modules, (key, data) :: rest =>
    if (dget modules key).isSome then
      (modules, some (.runtimeError ("Дублирующийся ключ модуля " ++ sq ++ key
        ++ sq ++ " в файле " ++ path)))
    else
      match data with
      | .valid mt loc st =>
        loadEntries path group_name
          (modules ++ [(key, { group := group_name, moduleType := mt,
                               localization := loc, stats := st })]) rest
      | .typeErr msg =>
        (modules, some (.runtimeError ("Неверная структура модуля " ++ sq
          ++ key ++ sq ++ " в " ++ path ++ ": " ++ msg)))
      | .validationErr msg => (modules, some (.validationError msg))

/-- The outer `for path in MODULE_FILES` loop of `load_modules`: existence
check, JSON parse, top-level schema check, then the entry loop. As in the
code, a raise aborts the remaining files but leaves `MODULES` as it stood
at the moment of the raise. -/
def loadFiles : Catalog → List Source → Catalog × Option LoadError
  | modules, [] => (modules, none)
  | modules, src :: rest =>
    match src.kind with
    | .missing =>
      (modules, some (.runtimeError ("Файл " ++ src.path ++ " не найден")))
    | .jsonError msg =>
      (modules, some (.runtimeError ("Ошибка парсинга " ++ src.path ++ ": " ++ msg)))
    | .parsed doc =>
      match doc.group, doc.modules with
      | some (.str group_name), some (.dict entries) =>
        match loadEntries src.path group_name modules entries with
        | (modules2, none) => loadFiles modules2 rest
        | (modules2, some e) => (modules2, some e)
      | _, _ =>
        (modules, some (.runtimeError ("Неверная структура файла " ++ src.path)))

/-- `load_modules()`: `if MODULES: return` (a non-empty dict is truthy),
else run the file loop. The global `MODULES` is the explicit first argument
and first component of the result. -/
def load_modules (modules : Catalog) (files : List Source) :
    Catalog × Option LoadError :=
  match modules with
  | _ :: _ => (modules, none)
  | [] => loadFiles [] files

/-- The `try: load_modules() except RuntimeError` prologue shared by the
endpoints: a `RuntimeError` becomes `HTTPException(500, str(e))`; a
validation error propagates uncaught. -/
def loadPrologue (catalog : Catalog) (files : List Source) :
    Except ApiErr Catalog × Catalog :=
  match load_modules catalog files with
  | (catalog2, some (.runtimeError msg)) => (.error (.http 500 msg), catalog2)
  | (catalog2, some (.validationError msg)) => (.error (.uncaught msg), catalog2)
  | (catalog2, none) => (.ok catalog2, catalog2)

/-- The `/module-stats` endpoint `module_stats`: lazy load, then
`compute_module_stats_payload`. The second component is the `MODULES`
state after the request. -/
def module_stats (catalog : Catalog) (files : List Source) (module : String)
    (q : Rat) (lang : String) : Except ApiErr ModuleStatsResponse × Catalog :=
  match loadPrologue catalog files with
  | (.error e, catalog2) => (.error e, catalog2)
  | (.ok catalog2, _) => (compute_module_stats_payload catalog2 module q lang, catalog2)

/-- The `/build-stats` endpoint `build_stats`: lazy load, then the build
computation. The second component is the `MODULES` state after the request. -/
def build_stats (catalog : Catalog) (files : List Source) (add_on : String)
    (add_on_q : Rat) (deviation : String) (deviation_q : Rat)
    (concept : String) (concept_q : Rat) (lang : String) :
    Except ApiErr BuildStatsResponse × Catalog :=
  match loadPrologue catalog files with
  | (.error e, catalog2) => (.error e, catalog2)
  | (.ok catalog2, _) =>
    (build_stats_core catalog2 add_on add_on_q deviation deviation_q
      concept concept_q lang, catalog2)

/-- The localization fallback rule as §4.2 of the spec words it: scan the
requested tag, then `ru`, `en`, `es`, `fr`, and return the first present
non-empty entry, absent if none. Written independently of
`resolve_display_name` for the equivalence proof. -/
def resolveDisplayNameSpec (m : ModuleDefinition) (lang : String) : Option String :=
  ([lang, "ru", "en", "es", "fr"].map (by_lang m.localization)).findSome?
    (fun o => if truthy o then o else none)

/-- The `ru -> en -> es -> fr` chain alone, with the requested language
skipped: what `resolve_display_name` falls back to. -/
def fallbackChain (loc : Localization) : Option String :=
  if truthy loc.ru then loc.ru
  else if truthy loc.en then loc.en
  else if truthy loc.es then loc.es
  else if truthy loc.fr then loc.fr
  else none

/-- Collapse an empty-string entry to an absent one. -/
def normStr : Option String → Option String
  | none => none
  | some s => if s = "" then none else some s

/-- Collapse every empty-string localization entry to an absent one. -/
def normLoc (loc : Localization) : Localization :=
  { ru := normStr loc.ru, en := normStr loc.en,
    es := normStr loc.es, fr := normStr loc.fr }

/-- Pointwise total of two optional stat values: absent operands contribute
nothing, and a stat absent on both sides stays absent. -/
def sumContrib : Option Rat → Option Rat → Option Rat
  | o, none => o
  | none, some w => some w
  | some v, some w => some (v + w)

/-! Concrete fixtures used by witnesses and counterexamples. -/

/-- A well-formed Add-On module (the `sniper_scope` scenario of §8). -/
def demoAddOn : ModuleDefinition :=
  { group := "Add-On", moduleType := "Accuracy",
    localization := { en := some "Sniper" },
    stats := [("accuracy", { a := 1, b := 1/2 })] }

/-- A well-formed Deviation module sharing the `accuracy` stat. -/
def demoDeviation : ModuleDefinition :=
  { group := "Deviation", moduleType := "Control",
    localization := { ru := some "", fr := some "Precis" },
    stats := [("accuracy", { a := 0, b := 1/10 }), ("control", { a := 2, b := 1 })] }

/-- A well-formed Concept module with a disjoint stat. -/
def demoConcept : ModuleDefinition :=
  { group := "Concept", moduleType := "Concept",
    localization := {},
    stats := [("speed", { a := 3, b := 0 })] }

/-- A small initialized catalog. -/
def demoCatalog : Catalog :=
  [("sniper_scope", demoAddOn), ("dev_x", demoDeviation), ("con_y", demoConcept)]

/-- A single well-formed source file declaring the demo modules. -/
def demoSource : Source :=
  { path := "modules_configuration/add_on_modules.json",
    kind := .parsed
      { group := some (.str "Add-On"),
        modules := some (.dict
          [("sniper_scope", .valid "Accuracy" { en := some "Sniper" }
              [("accuracy", { a := 1, b := 1/2 })])]) } }

/-- A source list whose first file is well formed and whose second file is
missing: the input on which `load_modules` raises after having already
committed the first file's module. -/
def partialSources : List Source :=
  [demoSource,
   { path := "modules_configuration/concept_modules.json", kind := .missing }]

/-- The catalog `load_modules` builds from `[demoSource]` alone. -/
def demoLoaded : Catalog := [("sniper_scope", demoAddOn)]

/-- The per-module payload for `sniper_scope` at percent 10, language `ru`. -/
def demoResp1 : ModuleStatsResponse :=
  { module := "sniper_scope", group := "Add-On", moduleType := "Accuracy",
    display_name := some "Sniper", percent := 10,
    stats := [("accuracy", 6)] }

/-- The per-module payload for `dev_x` at percent 10, language `ru`. -/
def demoResp2 : ModuleStatsResponse :=
  { module := "dev_x", group := "Deviation", moduleType := "Control",
    display_name := some "Precis", percent := 10,
    stats := [("accuracy", 1), ("control", 12)] }

/-- The per-module payload for `con_y` at percent 5, language `ru`. -/
def demoResp3 : ModuleStatsResponse :=
  { module := "con_y", group := "Concept", moduleType := "Concept",
    display_name := none, percent := 5,
    stats := [("speed", 3)] }

/-- The successful demo build result (§8 scenario: total accuracy 7). -/
def demoBuildResp : BuildStatsResponse :=
  { lang := "ru", modules := [demoResp1, demoResp2, demoResp3],
    total_stats := [("accuracy", 7), ("control", 12), ("speed", 3)] }

/-! Association-list lemmas. -/

theorem dget_dset_self {α : Type} (d : List (String × α)) (k : String) (v : α) :
    dget (dset d k v) k = some v := by
  induction d with
  | nil => simp [dget, dset]
  | cons p rest ih =>
    obtain ⟨k', w⟩ := p
    by_cases h : k' = k <;> simp [dget, dset, h, ih]

theorem dget_dset_ne {α : Type} (d : List (String × α)) (k k' : String) (v : α)
    (h : k' ≠ k) : dget (dset d k' v) k = dget d k := by
  induction d with
  | nil => simp [dget, dset, h]
  | cons p rest ih =>
    obtain ⟨k0, w⟩ := p
    by_cases h0 : k0 = k' <;> by_cases h1 : k0 = k <;>
      simp_all [dget, dset]

theorem dget_eq_none_iff {α : Type} (d : List (String × α)) (k : String) :
    dget d k = none ↔ k ∉ d.map Prod.fst := by
  induction d with
  | nil => simp [dget]
  | cons p rest ih =>
    obtain ⟨k', v⟩ := p
    by_cases h : k' = k
    · simp [dget, h]
    · simp [dget, h, ih, Ne.symm h]

theorem dget_map {α β : Type} (f : α → β) (d : List (String × α)) (k : String) :
    dget (d.map (fun p => (p.1, f p.2))) k = (dget d k).map f := by
  induction d with
  | nil => simp [dget]
  | cons p rest ih =>
    obtain ⟨k', v⟩ := p
    by_cases h : k' = k <;> simp [dget, h, ih]

/-! `calculate_stats` lemmas (shared by several claims). -/

theorem calculate_stats_keys (m : ModuleDefinition) (p : Rat) :
    (calculate_stats m p).map Prod.fst = m.stats.map Prod.fst := by
  simp [calculate_stats]

theorem dget_calculate_stats (m : ModuleDefinition) (p : Rat) (s : String) :
    dget (calculate_stats m p) s = (dget m.stats s).map (fun c => c.a + c.b * p) := by
  simpa [calculate_stats] using dget_map (fun c : StatCoeffs => c.a + c.b * p) m.stats s

/-- C2: for every module `m` and percent `p`, `calculate_stats` returns a
map with exactly the keys of `m`'s stats table, and each stat `s` maps to
`m.stats[s].a + m.stats[s].b * p`; no rounding or clamping occurs, for
negative or out-of-range `p` included. -/
theorem calculate_stats_formula (m : ModuleDefinition) (p : Rat) :
    (calculate_stats m p).map Prod.fst = m.stats.map Prod.fst ∧
    ∀ s, dget (calculate_stats m p) s
        = (dget m.stats s).map (fun c => c.a + c.b * p) :=
  ⟨calculate_stats_keys m p, fun s => dget_calculate_stats m p s⟩

/-! `resolve_display_name` lemmas. -/

theorem findSome_truthy_cons (o : Option String) (l : List (Option String)) :
    (o :: l).findSome? (fun x => if truthy x then x else none)
      = if truthy o then o
        else l.findSome? (fun x => if truthy x then x else none) := by
  cases o with
  | none => simp [List.findSome?, truthy]
  | some s =>
    by_cases h : s = "" <;> simp [List.findSome?, truthy, h]

/-- C4: `resolve_display_name` implements exactly the spec's fallback rule:
the requested language's entry when present and non-empty, else the first
present non-empty entry of the fixed `ru -> en -> es -> fr` chain, else
absent (never an error). -/
theorem resolve_display_name_fallback (m : ModuleDefinition) (lang : String) :
    resolve_display_name m lang = resolveDisplayNameSpec m lang := by
  show _ = resolveDisplayNameSpec m lang
  rw [resolveDisplayNameSpec]
  simp only [List.map_cons, List.map_nil, findSome_truthy_cons, List.findSome?_nil]
  rfl

theorem truthy_normStr (o : Option String) : truthy (normStr o) = truthy o := by
  cases o with
  | none => rfl
  | some s => by_cases h : s = "" <;> simp [normStr, truthy, h]

theorem normStr_of_truthy (o : Option String) (h : truthy o = true) :
    normStr o = o := by
  cases o with
  | none => rfl
  | some s =>
    simp only [truthy, bne_iff_ne] at h
    simp [normStr, h]

theorem by_lang_normLoc (loc : Localization) (key : String) :
    by_lang (normLoc loc) key = normStr (by_lang loc key) := by
  unfold by_lang normLoc
  repeat' split
  all_goals simp [normStr]

/-- C10: `resolve_display_name` is total over arbitrary language tags: a
tag outside `{ru, en, es, fr}` behaves exactly as a requested language with
no entry (the result is the bare `ru -> en -> es -> fr` chain), and an
empty-string localization entry behaves like an absent one at every
position in the chain. -/
theorem resolve_display_name_total (m : ModuleDefinition) (lang : String) :
    (lang ∉ (["ru", "en", "es", "fr"] : List String) →
      resolve_display_name m lang = fallbackChain m.localization) ∧
    resolve_display_name { m with localization := normLoc m.localization } lang
      = resolve_display_name m lang := by
  constructor
  · intro h
    simp only [List.mem_cons, List.not_mem_nil, or_false, not_or] at h
    obtain ⟨h1, h2, h3, h4⟩ := h
    simp [resolve_display_name, fallbackChain, by_lang, h1, h2, h3, h4, truthy]
  · show resolve_display_name ⟨m.group, m.moduleType, normLoc m.localization, m.stats⟩ lang = _
    unfold resolve_display_name
    simp only [by_lang_normLoc, truthy_normStr]
    by_cases h0 : truthy (by_lang m.localization lang)
    · simp [h0, normStr_of_truthy _ h0]
    · by_cases h1 : truthy (by_lang m.localization "ru")
      · simp [h0, h1, normStr_of_truthy _ h1]
      · by_cases h2 : truthy (by_lang m.localization "en")
        · simp [h0, h1, h2, normStr_of_truthy _ h2]
        · by_cases h3 : truthy (by_lang m.localization "es")
          · simp [h0, h1, h2, h3, normStr_of_truthy _ h3]
          · by_cases h4 : truthy (by_lang m.localization "fr")
            · simp [h0, h1, h2, h3, h4, normStr_of_truthy _ h4]
            · simp [h0, h1, h2, h3, h4]

/-- Witness for C10 at a concrete module and the unsupported tag `de`. -/
theorem resolve_display_name_total_witness :
    ("de" ∉ (["ru", "en", "es", "fr"] : List String) ∧
      resolve_display_name demoDeviation "de" = fallbackChain demoDeviation.localization) ∧
    resolve_display_name
        { demoDeviation with localization := normLoc demoDeviation.localization } "de"
      = resolve_display_name demoDeviation "de" := by
  have h := resolve_display_name_total demoDeviation "de"
  exact ⟨⟨by decide, h.1 (by decide)⟩, h.2⟩

/-! Totals-aggregation lemmas. -/

theorem addStats_cons (t : List (String × Rat)) (p : String × Rat)
    (rest : List (String × Rat)) :
    addStats t (p :: rest)
      = addStats (dset t p.1 ((dget t p.1).getD 0 + p.2)) rest := rfl

theorem addStats_dget (s : List (String × Rat)) (hs : (s.map Prod.fst).Nodup)
    (t : List (String × Rat)) (k : String) :
    dget (addStats t s) k
      = match dget s k with
        | none => dget t k
        | some w => some ((dget t k).getD 0 + w) := by
  induction s generalizing t with
  | nil => simp [addStats, dget]
  | cons p rest ih =>
    obtain ⟨k', w'⟩ := p
    rw [addStats_cons]
    simp only [List.map_cons, List.nodup_cons] at hs
    obtain ⟨hk', hrest⟩ := hs
    by_cases hk : k' = k
    · subst hk
      have hnone : dget rest k' = none := (dget_eq_none_iff rest k').mpr hk'
      rw [ih hrest]
      simp [dget, hnone, dget_dset_self]
    · rw [ih hrest]
      cases hr : dget rest k <;> simp [dget, hk, hr, dget_dset_ne _ _ _ _ hk]

theorem totals_dget (s1 s2 s3 : List (String × Rat))
    (h1 : (s1.map Prod.fst).Nodup) (h2 : (s2.map Prod.fst).Nodup)
    (h3 : (s3.map Prod.fst).Nodup) (k : String) :
    dget (addStats (addStats (addStats [] s1) s2) s3) k
      = sumContrib (sumContrib (dget s1 k) (dget s2 k)) (dget s3 k) := by
  rw [addStats_dget s3 h3, addStats_dget s2 h2, addStats_dget s1 h1]
  cases hv1 : dget s1 k <;> cases hv2 : dget s2 k <;> cases hv3 : dget s3 k <;>
    simp [sumContrib, dget]

theorem dget_ne_none_iff_mem {α : Type} (d : List (String × α)) (k : String) :
    ¬dget d k = none ↔ k ∈ d.map Prod.fst := by
  rw [dget_eq_none_iff]
  exact not_not

theorem sumContrib_eq_none_iff (o1 o2 : Option Rat) :
    sumContrib o1 o2 = none ↔ o1 = none ∧ o2 = none := by
  cases o1 <;> cases o2 <;> simp [sumContrib]

/-- C3: in every successful build result, the totals mapping holds exactly
the stat names present in at least one of the three per-module stat
mappings, and each total is the sum of that stat's value over the modules
defining it (a module lacking the stat contributes nothing). -/
theorem build_stats_totals (catalog : Catalog) (add_on : String) (add_on_q : Rat)
    (deviation : String) (deviation_q : Rat) (concept : String) (concept_q : Rat)
    (lang : String) (resp : BuildStatsResponse) (r1 r2 r3 : ModuleStatsResponse)
    (hwf : ∀ k m, dget catalog k = some m → (m.stats.map Prod.fst).Nodup)
    (h : build_stats_core catalog add_on add_on_q deviation deviation_q
          concept concept_q lang = .ok resp)
    (hm : resp.modules = [r1, r2, r3]) :
    (∀ s, dget resp.total_stats s
        = sumContrib (sumContrib (dget r1.stats s) (dget r2.stats s))
            (dget r3.stats s)) ∧
    (∀ s, s ∈ resp.total_stats.map Prod.fst ↔
        (s ∈ r1.stats.map Prod.fst ∨ s ∈ r2.stats.map Prod.fst
          ∨ s ∈ r3.stats.map Prod.fst)) := by
  cases ha : dget catalog add_on with
  | none => simp [build_stats_core, compute_module_stats_payload, ha] at h
  | some m1 =>
  cases hd : dget catalog deviation with
  | none => simp [build_stats_core, compute_module_stats_payload, ha, hd] at h
  | some m2 =>
  cases hc : dget catalog concept with
  | none => simp [build_stats_core, compute_module_stats_payload, ha, hd, hc] at h
  | some m3 =>
  simp only [build_stats_core, compute_module_stats_payload, ha, hd, hc] at h
  split at h
  · exact absurd h (by simp)
  · split at h
    · exact absurd h (by simp)
    · split at h
      · exact absurd h (by simp)
      · simp only [Except.ok.injEq] at h
        subst h
        simp only [BuildStatsResponse.modules, List.cons.injEq, and_true] at hm
        obtain ⟨e1, e2, e3⟩ := hm
        have n1 : ((calculate_stats m1 add_on_q).map Prod.fst).Nodup := by
          rw [calculate_stats_keys]; exact hwf _ _ ha
        have n2 : ((calculate_stats m2 deviation_q).map Prod.fst).Nodup := by
          rw [calculate_stats_keys]; exact hwf _ _ hd
        have n3 : ((calculate_stats m3 concept_q).map Prod.fst).Nodup := by
          rw [calculate_stats_keys]; exact hwf _ _ hc
        have key : ∀ s,
            dget (addStats (addStats (addStats [] (calculate_stats m1 add_on_q))
                (calculate_stats m2 deviation_q)) (calculate_stats m3 concept_q)) s
              = sumContrib (sumContrib (dget (calculate_stats m1 add_on_q) s)
                  (dget (calculate_stats m2 deviation_q) s))
                  (dget (calculate_stats m3 concept_q) s) :=
          fun s => totals_dget _ _ _ n1 n2 n3 s
        constructor
        · intro s
          rw [← e1, ← e2, ← e3]
          exact key s
        · intro s
          rw [← e1, ← e2, ← e3]
          dsimp only
          rw [← dget_ne_none_iff_mem, ← dget_ne_none_iff_mem,
            ← dget_ne_none_iff_mem, ← dget_ne_none_iff_mem, key s,
            sumContrib_eq_none_iff, sumContrib_eq_none_iff]
          tauto

theorem dget_eq_some_mem {α : Type} (d : List (String × α)) (k : String) (v : α)
    (h : dget d k = some v) : (k, v) ∈ d := by
  induction d with
  | nil => simp [dget] at h
  | cons p rest ih =>
    obtain ⟨k', w⟩ := p
    by_cases hk : k' = k
    · subst hk
      simp [dget] at h
      simp [h]
    · simp only [dget, if_neg hk] at h
      exact List.mem_cons_of_mem _ (ih h)

/-- Witness for C3: the §8 build scenario (`sniper_scope` at 10, `dev_x` at
10, `con_y` at 5) has total `accuracy = 7`, matching the per-module
contributions, and `speed` appears in the totals because one module has it. -/
theorem build_stats_totals_witness :
    dget demoBuildResp.total_stats "accuracy"
      = sumContrib (sumContrib (dget demoResp1.stats "accuracy")
          (dget demoResp2.stats "accuracy")) (dget demoResp3.stats "accuracy") ∧
    ("speed" ∈ demoBuildResp.total_stats.map Prod.fst ↔
      ("speed" ∈ demoResp1.stats.map Prod.fst ∨ "speed" ∈ demoResp2.stats.map Prod.fst
        ∨ "speed" ∈ demoResp3.stats.map Prod.fst)) := by
  have h := build_stats_totals demoCatalog "sniper_scope" 10 "dev_x" 10 "con_y" 5 "ru"
    demoBuildResp demoResp1 demoResp2 demoResp3
    (by
      intro k m hkm
      have hmem := dget_eq_some_mem _ _ _ hkm
      simp only [demoCatalog, List.mem_cons, List.not_mem_nil, or_false,
        Prod.mk.injEq] at hmem
      rcases hmem with ⟨-, rfl⟩ | ⟨-, rfl⟩ | ⟨-, rfl⟩ <;> decide)
    (by
      simp +decide only [build_stats_core, compute_module_stats_payload, demoCatalog,
        demoAddOn, demoDeviation, demoConcept, dget, calculate_stats,
        resolve_display_name, by_lang, truthy, addStats, dset, demoBuildResp,
        demoResp1, demoResp2, demoResp3, List.map, List.foldl, Option.getD,
        ite_true, ite_false]
      norm_num)
    rfl
  exact ⟨h.1 "accuracy", h.2 "speed"⟩

/-- C5: in a build where all three selected keys resolve, a resolved
module whose recorded group differs from its slot's expected group
(`Add-On`, `Deviation`, `Concept`) makes the build fail with the 400
mismatch error naming the offending key, its expected group and its actual
group (the first offending slot in order), and no build result is produced. -/
theorem build_stats_category_mismatch (catalog : Catalog)
    (add_on deviation concept : String) (add_on_q deviation_q concept_q : Rat)
    (lang : String) (m1 m2 m3 : ModuleDefinition)
    (h1 : dget catalog add_on = some m1) (h2 : dget catalog deviation = some m2)
    (h3 : dget catalog concept = some m3)
    (hmis : m1.group ≠ "Add-On" ∨ m2.group ≠ "Deviation" ∨ m3.group ≠ "Concept") :
    build_stats_core catalog add_on add_on_q deviation deviation_q concept
        concept_q lang
      = .error (.http 400
          (if m1.group ≠ "Add-On" then groupMismatchMsg add_on "Add-On" m1.group
           else if m2.group ≠ "Deviation" then
             groupMismatchMsg deviation "Deviation" m2.group
           else groupMismatchMsg concept "Concept" m3.group)) := by
  simp only [build_stats_core, compute_module_stats_payload, h1, h2, h3]
  by_cases g1 : m1.group = "Add-On"
  · by_cases g2 : m2.group = "Deviation"
    · by_cases g3 : m3.group = "Concept"
      · tauto
      · simp [g1, g2, g3]
    · simp [g1, g2]
  · simp [g1]

/-- Witness for C5: submitting the Concept module `con_y` in the Add-On
slot fails with the 400 mismatch error naming `con_y`. -/
theorem build_stats_category_mismatch_witness :
    build_stats_core demoCatalog "con_y" 10 "dev_x" 10 "sniper_scope" 5 "ru"
      = .error (.http 400 (groupMismatchMsg "con_y" "Add-On" "Concept")) := by
  have h := build_stats_category_mismatch demoCatalog "con_y" "dev_x" "sniper_scope"
    10 10 5 "ru" demoConcept demoDeviation demoAddOn
    (by simp +decide [dget, demoCatalog]) (by simp +decide [dget, demoCatalog])
    (by simp +decide [dget, demoCatalog]) (Or.inl (by decide))
  rw [h]
  simp +decide [demoConcept]

/-- C9: `build_stats` resolves all three keys (in the order add-on,
deviation, concept) before any group validation: a missing key yields the
404 naming the first missing key in that order, even when an
earlier-positioned slot also has a group mismatch, and the 400 mismatch
error can only arise when all three keys resolve. -/
theorem build_stats_resolution_order (catalog : Catalog)
    (add_on deviation concept : String) (add_on_q deviation_q concept_q : Rat)
    (lang : String) :
    (dget catalog add_on = none →
      build_stats_core catalog add_on add_on_q deviation deviation_q concept
          concept_q lang
        = .error (.http 404 (unknownModuleMsg add_on))) ∧
    ((dget catalog add_on).isSome → dget catalog deviation = none →
      build_stats_core catalog add_on add_on_q deviation deviation_q concept
          concept_q lang
        = .error (.http 404 (unknownModuleMsg deviation))) ∧
    ((dget catalog add_on).isSome → (dget catalog deviation).isSome →
      dget catalog concept = none →
      build_stats_core catalog add_on add_on_q deviation deviation_q concept
          concept_q lang
        = .error (.http 404 (unknownModuleMsg concept))) ∧
    (∀ d, build_stats_core catalog add_on add_on_q deviation deviation_q concept
          concept_q lang
        = .error (.http 400 d) →
      (dget catalog add_on).isSome ∧ (dget catalog deviation).isSome ∧
        (dget catalog concept).isSome) := by
  refine ⟨?_, ?_, ?_, ?_⟩
  · intro ha
    simp [build_stats_core, compute_module_stats_payload, ha]
  · intro ha hd
    obtain ⟨m1, hm1⟩ := Option.isSome_iff_exists.mp ha
    simp [build_stats_core, compute_module_stats_payload, hm1, hd]
  · intro ha hd hc
    obtain ⟨m1, hm1⟩ := Option.isSome_iff_exists.mp ha
    obtain ⟨m2, hm2⟩ := Option.isSome_iff_exists.mp hd
    simp [build_stats_core, compute_module_stats_payload, hm1, hm2, hc]
  · intro d hd
    cases ha : dget catalog add_on with
    | none => simp [build_stats_core, compute_module_stats_payload, ha] at hd
    | some m1 =>
      cases hdd : dget catalog deviation with
      | none => simp [build_stats_core, compute_module_stats_payload, ha, hdd] at hd
      | some m2 =>
        cases hc : dget catalog concept with
        | none =>
          simp [build_stats_core, compute_module_stats_payload, ha, hdd, hc] at hd
        | some m3 => simp [ha, hdd, hc]

/-- Witness for C9: with the mismatched `con_y` in the add-on slot and a
missing deviation key, the result is the 404 naming the missing key, not
the mismatch. -/
theorem build_stats_resolution_order_witness :
    build_stats_core demoCatalog "con_y" 10 "missing" 10 "sniper_scope" 5 "ru"
      = .error (.http 404 (unknownModuleMsg "missing")) := by
  have h := build_stats_resolution_order demoCatalog "con_y" "missing"
    "sniper_scope" 10 10 5 "ru"
  exact h.2.1 (by decide) (by decide)

/-- C6: the single-module computation fails with exactly
`HTTPException(404, "Unknown module '<key>'")` iff the requested key is
absent; the build computation fails with that 404 (naming an absent
requested key) iff one of its three requested keys is absent, and any 404
it raises names an absent requested key. -/
theorem not_found_iff_absent (catalog : Catalog) (key : String) (p : Rat)
    (add_on deviation concept : String) (add_on_q deviation_q concept_q : Rat)
    (lang : String) :
    ((compute_module_stats_payload catalog key p lang
        = .error (.http 404 (unknownModuleMsg key))) ↔ dget catalog key = none) ∧
    ((∃ k, k ∈ [add_on, deviation, concept] ∧ dget catalog k = none ∧
        build_stats_core catalog add_on add_on_q deviation deviation_q concept
            concept_q lang
          = .error (.http 404 (unknownModuleMsg k)))
      ↔ (dget catalog add_on = none ∨ dget catalog deviation = none ∨
          dget catalog concept = none)) ∧
    (∀ d, build_stats_core catalog add_on add_on_q deviation deviation_q concept
          concept_q lang
        = .error (.http 404 d) →
      ∃ k, k ∈ [add_on, deviation, concept] ∧ dget catalog k = none ∧
        d = unknownModuleMsg k) := by
  refine ⟨?_, ?_, ?_⟩
  · cases hk : dget catalog key <;>
      simp [compute_module_stats_payload, hk]
  · constructor
    · rintro ⟨k, hk, hnone, -⟩
      simp only [List.mem_cons, List.not_mem_nil, or_false] at hk
      rcases hk with rfl | rfl | rfl <;> tauto
    · intro habs
      cases ha : dget catalog add_on with
      | none =>
        exact ⟨add_on, by simp, ha,
          by simp [build_stats_core, compute_module_stats_payload, ha]⟩
      | some m1 =>
        cases hd : dget catalog deviation with
        | none =>
          exact ⟨deviation, by simp, hd,
            by simp [build_stats_core, compute_module_stats_payload, ha, hd]⟩
        | some m2 =>
          cases hc : dget catalog concept with
          | none =>
            exact ⟨concept, by simp, hc,
              by simp [build_stats_core, compute_module_stats_payload, ha, hd, hc]⟩
          | some m3 => simp [ha, hd, hc] at habs
  · intro d hd
    cases ha : dget catalog add_on with
    | none =>
      simp only [build_stats_core, compute_module_stats_payload, ha,
        Except.error.injEq, ApiErr.http.injEq, true_and] at hd
      exact ⟨add_on, by simp, ha, hd.symm⟩
    | some m1 =>
      cases hdd : dget catalog deviation with
      | none =>
        simp only [build_stats_core, compute_module_stats_payload, ha, hdd,
          Except.error.injEq, ApiErr.http.injEq, true_and] at hd
        exact ⟨deviation, by simp, hdd, hd.symm⟩
      | some m2 =>
        cases hc : dget catalog concept with
        | none =>
          simp only [build_stats_core, compute_module_stats_payload, ha, hdd, hc,
            Except.error.injEq, ApiErr.http.injEq, true_and] at hd
          exact ⟨concept, by simp, hc, hd.symm⟩
        | some m3 =>
          simp only [build_stats_core, compute_module_stats_payload, ha, hdd, hc] at hd
          split at hd
          · simp at hd
          · split at hd
            · simp at hd
            · split at hd
              · simp at hd
              · simp at hd

/-- Witness for C6: the missing key direction of both equivalences at a
concrete catalog and keys. -/
theorem not_found_iff_absent_witness :
    (compute_module_stats_payload demoCatalog "missing" 3 "ru"
        = .error (.http 404 (unknownModuleMsg "missing"))) ∧
    (∃ k, k ∈ ["sniper_scope", "missing", "con_y"] ∧ dget demoCatalog k = none ∧
      build_stats_core demoCatalog "sniper_scope" 10 "missing" 10 "con_y" 5 "ru"
        = .error (.http 404 (unknownModuleMsg k))) := by
  have h := not_found_iff_absent demoCatalog "missing" 3 "sniper_scope" "missing"
    "con_y" 10 10 5 "ru"
  exact ⟨h.1.mpr (by decide), h.2.1.mpr (Or.inr (Or.inl (by decide)))⟩

/-- C7: once a load has succeeded, a further `load_modules` call is a
no-op returning the same catalog with no error. -/
theorem load_modules_idempotent (files : List Source) (c : Catalog)
    (h : load_modules [] files = (c, none)) :
    load_modules c files = (c, none) := by
  cases c with
  | nil => exact h
  | cons p rest => rfl

/-- Witness for C7: after a successful load of the demo source, loading
again changes nothing. -/
theorem load_modules_idempotent_witness :
    load_modules demoLoaded [demoSource] = (demoLoaded, none) :=
  load_modules_idempotent [demoSource] demoLoaded
    (by simp +decide [load_modules, loadFiles, loadEntries, demoSource, demoLoaded,
      demoAddOn, dget])

/-- C8: with the catalog initialized (non-empty), neither endpoint
modifies it, whether the request succeeds or fails: the `MODULES` state
after `/module-stats` and `/build-stats` equals the state before. -/
theorem requests_preserve_catalog (catalog : Catalog) (files : List Source)
    (module : String) (q : Rat) (lang : String) (add_on : String)
    (add_on_q : Rat) (deviation : String) (deviation_q : Rat) (concept : String)
    (concept_q : Rat) (lang2 : String) (hinit : catalog ≠ []) :
    (module_stats catalog files module q lang).2 = catalog ∧
    (build_stats catalog files add_on add_on_q deviation deviation_q concept
        concept_q lang2).2 = catalog := by
  cases catalog with
  | nil => exact absurd rfl hinit
  | cons p rest => exact ⟨rfl, rfl⟩

/-- Witness for C8: concrete requests against the demo catalog —
one 404, one mismatch — leave the catalog untouched. -/
theorem requests_preserve_catalog_witness :
    (module_stats demoCatalog [demoSource] "missing" 3 "ru").2 = demoCatalog ∧
    (build_stats demoCatalog [demoSource] "con_y" 10 "dev_x" 10 "sniper_scope" 5
        "ru").2 = demoCatalog :=
  requests_preserve_catalog demoCatalog [demoSource] "missing" 3 "ru" "con_y" 10
    "dev_x" 10 "sniper_scope" 5 "ru" (by decide)

/-- C1 is refuted by the code: on `partialSources` (first file well formed,
second file missing) `load_modules` raises, yet the first file's module
stays committed in `MODULES`, and the next `load_modules` call sees a
non-empty dict and returns immediately with no error — the partial catalog
is served as if fully loaded instead of being left empty for a retry. -/
theorem load_modules_not_atomic :
    load_modules [] partialSources
      = (demoLoaded,
         some (.runtimeError
           ("Файл " ++ "modules_configuration/concept_modules.json" ++ " не найден"))) ∧
    demoLoaded ≠ [] ∧
    load_modules demoLoaded partialSources = (demoLoaded, none) := by
  refine ⟨?_, by decide, rfl⟩
  simp +decide [load_modules, loadFiles, loadEntries, partialSources, demoSource,
    demoLoaded, demoAddOn, dget]

end ModulesApi
